import Mathlib

/-!
Verification of the mcp-pandoc conversion gateway (`src/mcp_pandoc/server.py`).

The development shallowly embeds the request-handling logic of
`handle_call_tool` and the route-prefix derivation of `main` as pure Lean
functions.  Python strings are `String` (lists of characters); the Python
standard-library helpers the handler relies on (`str.lower`, `str.strip`,
`str.rstrip('/')`, `os.path.basename`, `os.path.join`,
`urllib.parse.urlparse(...).path`) are modelled character-by-character for
the ASCII inputs the server manipulates.  The external pandoc engine
(`pypandoc.convert_file` / `pypandoc.convert_text`) is an opaque collaborator:
the environment supplies its inline results as total functions, and the
handler additionally returns the list of engine invocations it performed so
that "the engine is never invoked" is a provable statement.
-/

namespace MCPPandoc

/-- Python truthiness of an optional string argument (`arguments.get(k)`):
`None` and the empty string are falsy, every other string is truthy. -/
def pyTruthy : Option String → Bool
  | none => false
  | some s => !(s == "")

/-- One character of Python `str.lower()`, restricted to ASCII: uppercase
ASCII letters are shifted down by 32, everything else is unchanged. -/
def pyLowerChar (c : Char) : Char :=
  if 65 ≤ c.toNat ∧ c.toNat ≤ 90 then Char.ofNat (c.toNat + 32) else c

/-- Model of Python `str.lower()` (ASCII fragment): lowercase every
character. -/
def pyLower (s : String) : String :=
  ⟨s.data.map pyLowerChar⟩

/-- The characters Python's no-argument `str.strip()` removes (ASCII
whitespace). -/
def pyIsSpace (c : Char) : Bool :=
  c == ' ' || c == '\t' || c == '\n' || c == '\r' || c == '\x0b' || c == '\x0c'

/-- Model of the test `not s.strip()`: `true` iff `s` is empty or consists
only of whitespace characters. -/
def pyStripIsEmpty (s : String) : Bool :=
  s.data.all pyIsSpace

/-- Model of POSIX `os.path.basename`: the part of the path after the last
`'/'` (empty when the path is empty or ends in `'/'`). -/
def pyBasename (p : String) : String :=
  ⟨(p.data.reverse.takeWhile (fun c => c != '/')).reverse⟩

/-- Model of POSIX `os.path.join a b` for two components: if `b` is
absolute the result is `b`; otherwise `b` is appended to `a`, inserting a
`'/'` unless `a` is empty or already ends in `'/'`. -/
def pyJoin (a b : String) : String :=
  if b.data.head? = some '/' then b
  else if a.data = [] ∨ a.data.getLast? = some '/' then ⟨a.data ++ b.data⟩
  else ⟨a.data ++ '/' :: b.data⟩

/-- Model of Python `s.rstrip('/')`: remove every trailing `'/'`. -/
def rstripSlash (s : String) : String :=
  ⟨(s.data.reverse.dropWhile (fun c => c == '/')).reverse⟩

/-- Characters allowed in a URL scheme (`urllib.parse.scheme_chars`). -/
def isSchemeChar (c : Char) : Bool :=
  c.isAlpha || c.isDigit || c == '+' || c == '-' || c == '.'

/-- Whether the URL starts with a `scheme:` part, following
`urllib.parse.urlsplit`: a `':'` occurs at a positive index, the first
character is an ASCII letter, and everything before the `':'` is a scheme
character. -/
def hasScheme (cs : List Char) : Bool :=
  let pre := cs.takeWhile (fun c => c != ':')
  decide (pre.length < cs.length) && !pre.isEmpty &&
    (match cs.head? with
     | some c => c.isAlpha && decide (c.toNat < 128)
     | none => false) &&
    pre.all isSchemeChar

/-- Model of `urllib.parse.urlparse(url).path` for the http-style base URLs
this server is configured with: strip a leading `scheme:`, skip a
`//netloc` part (which extends to the next `'/'`, `'?'` or `'#'`), and cut
the remainder at the first `'?'` or `'#'`.  (The `;parameters` field, split
off by `urlparse` for some schemes, does not occur in download base URLs
and is not modelled.) -/
def pyUrlparsePath (url : String) : String :=
  let cs := url.data
  let cs1 := if hasScheme cs then (cs.dropWhile (fun c => c != ':')).drop 1 else cs
  let cs2 :=
    if cs1.take 2 = ['/', '/'] then
      (cs1.drop 2).dropWhile (fun c => c != '/' && c != '?' && c != '#')
    else cs1
  ⟨(cs2.takeWhile (fun c => c != '#')).takeWhile (fun c => c != '?')⟩

/-- The supported output formats (`SUPPORTED_FORMATS` in the handler,
written as a Python set literal; membership is what matters). -/
def SUPPORTED_FORMATS : List String :=
  ["html", "markdown", "pdf", "docx", "rst", "latex", "epub", "txt"]

/-- The advanced output formats requiring an output file
(`ADVANCED_FORMATS`). -/
def ADVANCED_FORMATS : List String :=
  ["pdf", "docx", "rst", "latex", "epub"]

/-- The `extra_args` list built in the `try` block: for pdf output the
xelatex engine and a margin setting, plus east-asian line breaks when the
input format is markdown; empty otherwise. -/
def buildExtraArgs (output_format input_format : String) : List String :=
  if output_format == "pdf" then
    ["--pdf-engine=xelatex", "-V", "geometry:margin=1in"] ++
      (if input_format == "markdown" then ["--from=markdown+east_asian_line_breaks"] else [])
  else []

/-- The tool-call arguments dictionary, restricted to the keys the handler
reads; `none` is an absent key. -/
structure ToolArguments where
  contents : Option String := none
  input_file : Option String := none
  input_format : Option String := none
  output_format : Option String := none
  output_file : Option String := none
deriving Repr, DecidableEq

/-- Model of `if not arguments:`: the dictionary is empty (no key the
handler reads is present). -/
def argsEmpty (a : ToolArguments) : Bool :=
  a.contents == none && a.input_file == none && a.input_format == none &&
    a.output_format == none && a.output_file == none

/-- Process-wide configuration plus the opaque external collaborators: the
filesystem existence test (`os.path.exists`) and the pandoc engine's inline
results (`pypandoc.convert_file` / `convert_text` without `outputfile`). -/
structure Env where
  sharedDownloadInternalPath : String
  downloadBaseURL : String
  fsExists : String → Bool
  convertFileInline : String → String → List String → String
  convertTextInline : String → String → String → List String → String

/-- Errors raised inside the handler's `try` block (wrapped by the
`except` clause before reaching the caller). -/
inductive InnerError where
  | inputFileNotFound (path : String)
  | noOutputGenerated
deriving Repr, DecidableEq

/-- The distinct `ValueError`s `handle_call_tool` can raise, carrying the
data interpolated into their messages. -/
inductive HandlerError where
  | unknownTool (name : String)
  | missingArguments
  | missingSourceArgument
  | unsupportedOutputFormat (fmt : String) (supported : List String)
  | outputFileRequired (fmt : String)
  | outputFileMissingFilename
  | conversionError (sourceDesc fromFmt toFmt : String) (inner : InnerError)
deriving Repr, DecidableEq

/-- One invocation of the external pandoc engine, with the arguments the
handler passes (`convert_file` receives no source format; `convert_text`
receives `format=input_format`). -/
inductive EngineCall where
  | convertFile (inputFile toFormat : String) (outputfile : Option String) (extraArgs : List String)
  | convertText (text toFormat fromFormat : String) (outputfile : Option String) (extraArgs : List String)
deriving Repr, DecidableEq

/-- The `extra_args` an engine invocation received. -/
def EngineCall.extra : EngineCall → List String
  | .convertFile _ _ _ ea => ea
  | .convertText _ _ _ _ ea => ea

/-- Whether an engine invocation reads from a file (`convert_file`) rather
than from an inline string (`convert_text`). -/
def EngineCall.isFileSource : EngineCall → Bool
  | .convertFile _ _ _ _ => true
  | .convertText _ _ _ _ _ => false

/-- Lines 205–219 of the handler: derive, from the user-specified output
file, the sanitized filename, the internal storage path and the download
URL; fail when no filename component remains. -/
def resolveOutput (sharedDir downloadBaseURL userOutputFile : String) :
    Except HandlerError (String × String × String) :=
  let output_filename_for_url := pyBasename userOutputFile
  if output_filename_for_url = "" then
    .error .outputFileMissingFilename
  else
    .ok (output_filename_for_url,
         pyJoin sharedDir output_filename_for_url,
         rstripSlash downloadBaseURL ++ "/" ++ output_filename_for_url)

/-- The success message for file-mode conversions (lines 283–287). -/
def fileSuccessMsg (downloadURL internalPath : String) : String :=
  "Content successfully converted. Download from: " ++ downloadURL ++
    "\n(Internally saved at: " ++ internalPath ++ ")"

/-- The notice returned when an inline conversion produces empty or
all-whitespace output (lines 291–294). -/
def emptyResultMsg (output_format : String) : String :=
  "Conversion to " ++ output_format ++ " resulted in empty content. " ++
    "This might be expected or indicate an issue (e.g., missing fonts for PDF with CJK)."

/-- The normal inline-mode success message carrying the converted contents
(lines 296–301). -/
def convertedContentsMsg (output_format converted : String) : String :=
  "Following are the converted contents in " ++ output_format ++ " format.\n" ++
    "If you want to save this as a file and get a download link, " ++
    "please provide the `output_file` parameter with a complete path (e.g., \"/path/to/my_document." ++
    output_format ++ "\").\n\nConverted Contents:\n\n" ++ converted

/-- Message selection for inline mode (lines 288–301): the empty-result
notice when the engine output strips to nothing, the normal message
otherwise. -/
def inlineResultMsg (output_format converted : String) : String :=
  if pyStripIsEmpty converted then emptyResultMsg output_format
  else convertedContentsMsg output_format converted

/-- Shallow embedding of `handle_call_tool` (lines 171–310).  Returns the
result (the response text, or the raised `ValueError`) together with the
list of external-engine invocations performed. -/
def handle_call_tool (env : Env) (name : String) (arguments : Option ToolArguments) :
    Except HandlerError String × List EngineCall :=
  if name != "convert-contents" then (.error (.unknownTool name), [])
  else
    match arguments with
    | none => (.error .missingArguments, [])
    | some args =>
      if argsEmpty args then (.error .missingArguments, [])
      else
        let contents := args.contents
        let input_file_path := args.input_file
        let user_specified_output_file := args.output_file
        let output_format := pyLower (args.output_format.getD "markdown")
        let input_format := pyLower (args.input_format.getD "markdown")
        if !pyTruthy contents && !pyTruthy input_file_path then
          (.error .missingSourceArgument, [])
        else if !(SUPPORTED_FORMATS.contains output_format) then
          (.error (.unsupportedOutputFormat output_format SUPPORTED_FORMATS), [])
        else if ADVANCED_FORMATS.contains output_format && !pyTruthy user_specified_output_file then
          (.error (.outputFileRequired output_format), [])
        else
          match (if pyTruthy user_specified_output_file then
                   (resolveOutput env.sharedDownloadInternalPath env.downloadBaseURL
                     (user_specified_output_file.getD "")).map some
                 else .ok none) with
          | .error e => (.error e, [])
          | .ok resolved =>
            let extra_args := buildExtraArgs output_format input_format
            if pyTruthy input_file_path then
              let p := input_file_path.getD ""
              if !env.fsExists p then
                (.error (.conversionError ("file " ++ p) input_format output_format
                  (.inputFileNotFound p)), [])
              else
                match resolved with
                | some (_, internalPath, url) =>
                  (.ok (fileSuccessMsg url internalPath),
                   [.convertFile p output_format (some internalPath) extra_args])
                | none =>
                  (.ok (inlineResultMsg output_format (env.convertFileInline p output_format extra_args)),
                   [.convertFile p output_format none extra_args])
            else
              let c := contents.getD ""
              match resolved with
              | some (_, internalPath, url) =>
                (.ok (fileSuccessMsg url internalPath),
                 [.convertText c output_format input_format (some internalPath) extra_args])
              | none =>
                (.ok (inlineResultMsg output_format
                    (env.convertTextInline c output_format input_format extra_args)),
                 [.convertText c output_format input_format none extra_args])

/-- Lines 324–335 of `main`: the static file server's route is the path
component of the download base URL with trailing slashes stripped; when
that leaves nothing the route is the root `"/"` and a warning is logged
(the boolean records whether the warning fired). -/
def httpServerRoute (downloadBaseURL : String) : String × Bool :=
  let parsedPath := pyUrlparsePath downloadBaseURL
  let stripped := rstripSlash parsedPath
  if stripped = "" then ("/", true) else (stripped, false)

/-- The default shared download directory (`MCP_PANDOC_SHARED_DIR` unset). -/
def defaultSharedDir : String := "/app/shared_downloads"

/-- The default download base URL (`MCP_PANDOC_DOWNLOAD_BASE_URL` unset). -/
def defaultDownloadBaseURL : String := "http://localhost:8081/downloads"

/-- A concrete environment for witness instantiations: default
configuration, every path exists, the engine returns a fixed non-empty
document. -/
def testEnv : Env where
  sharedDownloadInternalPath := defaultSharedDir
  downloadBaseURL := defaultDownloadBaseURL
  fsExists := fun _ => true
  convertFileInline := fun _ _ _ => "converted"
  convertTextInline := fun _ _ _ _ => "converted"

/-! ### Auxiliary lemmas about the string models -/

theorem pyTruthy_some {s : String} (h : s ≠ "") : pyTruthy (some s) = true := by
  simp [pyTruthy, h]

theorem append_slash_ne_empty (q : String) : q ++ "/" ≠ "" := by
  intro h
  have h2 := congrArg String.data h
  simp [String.data_append] at h2

theorem pyBasename_no_sep (f : String) (h : ∀ c ∈ f.data, c ≠ '/') :
    pyBasename f = f := by
  unfold pyBasename
  have ht : f.data.reverse.takeWhile (fun c => c != '/') = f.data.reverse := by
    rw [List.takeWhile_eq_self_iff]
    intro x hx
    simpa using h x (List.mem_reverse.mp hx)
  rw [ht, List.reverse_reverse]

theorem pyBasename_dir (d f : String) (h : ∀ c ∈ f.data, c ≠ '/') :
    pyBasename (d ++ "/" ++ f) = f := by
  unfold pyBasename
  have hdata : (d ++ "/" ++ f).data = (d.data ++ ['/']) ++ f.data := by
    simp [String.data_append]
  rw [hdata, List.reverse_append, List.reverse_append]
  have hall : ∀ c ∈ f.data.reverse, (fun c => c != '/') c = true := by
    intro c hc
    simpa using h c (List.mem_reverse.mp hc)
  rw [List.takeWhile_append_of_pos hall]
  simp

theorem pyBasename_ends_sep (q : String) : pyBasename (q ++ "/") = "" := by
  unfold pyBasename
  have hdata : (q ++ "/").data = q.data ++ ['/'] := by
    simp [String.data_append]
  rw [hdata, List.reverse_append]
  simp

theorem argsEmpty_false_of_contents {a : ToolArguments} (h : pyTruthy a.contents = true) :
    argsEmpty a = false := by
  cases hc : a.contents with
  | none => rw [hc] at h; simp [pyTruthy] at h
  | some s => simp [argsEmpty, hc]

theorem argsEmpty_false_of_input_file {a : ToolArguments} (h : pyTruthy a.input_file = true) :
    argsEmpty a = false := by
  cases hc : a.input_file with
  | none => rw [hc] at h; simp [pyTruthy] at h
  | some s => simp [argsEmpty, hc]

theorem advanced_mem_supported {s : String} (h : ADVANCED_FORMATS.contains s = true) :
    SUPPORTED_FORMATS.contains s = true := by
  simp [ADVANCED_FORMATS] at h
  rcases h with h | h | h | h | h <;> simp [SUPPORTED_FORMATS, h]

theorem resolveOutput_error {sh b u : String} {e : HandlerError}
    (h : resolveOutput sh b u = .error e) : e = .outputFileMissingFilename := by
  simp only [resolveOutput] at h
  split at h <;> simp_all

theorem resolvedStep_error {c : Bool} {sh b u : String} {e : HandlerError}
    (h : (if c = true then Except.map some (resolveOutput sh b u)
          else Except.ok none) = Except.error e) :
    e = .outputFileMissingFilename := by
  split at h
  · cases hres : resolveOutput sh b u with
    | error e2 =>
      rw [hres] at h
      simp [Except.map] at h
      subst h
      exact resolveOutput_error hres
    | ok v => rw [hres] at h; simp [Except.map] at h
  · simp at h

set_option maxRecDepth 4000 in
theorem convertedContentsMsg_ne_emptyResultMsg (ofmt r : String) :
    convertedContentsMsg ofmt r ≠ emptyResultMsg ofmt := by
  intro h
  have h1 : (convertedContentsMsg ofmt r).data.head? = some 'F' := by
    have hlit : ("Following are the converted contents in " : String).data =
        'F' :: ("ollowing are the converted contents in " : String).data := rfl
    simp [convertedContentsMsg, String.data_append, hlit]
  have h2 : (emptyResultMsg ofmt).data.head? = some 'C' := by
    have hlit : ("Conversion to " : String).data =
        'C' :: ("onversion to " : String).data := rfl
    simp [emptyResultMsg, String.data_append, hlit]
  rw [h, h2] at h1
  simp at h1

/-! ### Claim theorems -/

/-- C7: the extra engine flags contain the xelatex engine selection and the
margin setting exactly when the output format is pdf, additionally the
east-asian line-break option exactly when the input format is also
markdown, and are empty for every non-pdf output format; every engine
invocation the handler performs receives exactly these flags for the
request's lowercased formats. -/
theorem C7_extra_args (output_format input_format : String) :
    (output_format = "pdf" →
      "--pdf-engine=xelatex" ∈ buildExtraArgs output_format input_format ∧
      "-V" ∈ buildExtraArgs output_format input_format ∧
      "geometry:margin=1in" ∈ buildExtraArgs output_format input_format) ∧
    (output_format = "pdf" → input_format = "markdown" →
      "--from=markdown+east_asian_line_breaks" ∈ buildExtraArgs output_format input_format) ∧
    (output_format = "pdf" → input_format ≠ "markdown" →
      "--from=markdown+east_asian_line_breaks" ∉ buildExtraArgs output_format input_format) ∧
    (output_format ≠ "pdf" → buildExtraArgs output_format input_format = []) ∧
    (∀ env name a call, call ∈ (handle_call_tool env name (some a)).2 →
      call.extra = buildExtraArgs (pyLower (a.output_format.getD "markdown"))
        (pyLower (a.input_format.getD "markdown"))) := by
  refine ⟨?_, ?_, ?_, ?_, ?_⟩
  · intro h
    subst h
    by_cases hi : input_format = "markdown" <;> simp [buildExtraArgs, hi]
  · intro h hi
    subst h
    subst hi
    simp [buildExtraArgs]
  · intro h hi
    subst h
    simp [buildExtraArgs, hi]
  · intro h
    simp [buildExtraArgs, h]
  · intro env nm a call hcall
    simp only [handle_call_tool] at hcall
    repeat' split at hcall
    all_goals simp_all [EngineCall.extra]

/-- C7 witness: at the pdf/markdown instance the flag list contains all
three pdf flags and the east-asian option, and at html output the flag
list is empty. -/
theorem C7_extra_args_witness :
    "--pdf-engine=xelatex" ∈ buildExtraArgs "pdf" "markdown" ∧
    "--from=markdown+east_asian_line_breaks" ∈ buildExtraArgs "pdf" "markdown" ∧
    buildExtraArgs "html" "markdown" = [] := by
  refine ⟨((C7_extra_args "pdf" "markdown").1 rfl).1,
    (C7_extra_args "pdf" "markdown").2.1 rfl rfl,
    (C7_extra_args "html" "markdown").2.2.2.1 (by decide)⟩

/-- C3: for every output_file whose final component is a filename, the
resolved internal storage path is join(sharedStorageDirectory, basename)
and the download URL is the base URL with trailing slashes stripped, then
"/", then the basename — every directory component is discarded; an
output_file ending in a path separator has no filename component and makes
the resolution, and with it the handler, fail with the empty-filename
error. -/
theorem C3_output_resolution :
    (∀ shared base d f, f ≠ "" → (∀ c ∈ f.data, c ≠ '/') →
      resolveOutput shared base (d ++ "/" ++ f) =
        .ok (f, pyJoin shared f, rstripSlash base ++ "/" ++ f)) ∧
    (∀ shared base f, f ≠ "" → (∀ c ∈ f.data, c ≠ '/') →
      resolveOutput shared base f =
        .ok (f, pyJoin shared f, rstripSlash base ++ "/" ++ f)) ∧
    (∀ shared base q,
      resolveOutput shared base (q ++ "/") = .error .outputFileMissingFilename) ∧
    (∀ (env : Env) (a : ToolArguments) (q : String),
      (pyTruthy a.contents = true ∨ pyTruthy a.input_file = true) →
      a.output_file = some (q ++ "/") →
      SUPPORTED_FORMATS.contains (pyLower (a.output_format.getD "markdown")) = true →
      (handle_call_tool env "convert-contents" (some a)).1 =
        .error .outputFileMissingFilename) := by
  have hsep : ∀ shared base q,
      resolveOutput shared base (q ++ "/") = .error .outputFileMissingFilename := by
    intro shared base q
    simp [resolveOutput, pyBasename_ends_sep]
  refine ⟨?_, ?_, hsep, ?_⟩
  · intro shared base d f h1 h2
    simp only [resolveOutput, pyBasename_dir d f h2]
    rw [if_neg h1]
  · intro shared base f h1 h2
    simp only [resolveOutput, pyBasename_no_sep f h2]
    rw [if_neg h1]
  · intro env a q hsrc hout hsup
    have htr : pyTruthy (some (q ++ "/")) = true :=
      pyTruthy_some (append_slash_ne_empty q)
    have hne : argsEmpty a = false := by
      rcases hsrc with h | h
      · exact argsEmpty_false_of_contents h
      · exact argsEmpty_false_of_input_file h
    have hsup2 : pyLower (a.output_format.getD "markdown") ∈ SUPPORTED_FORMATS := by
      simpa using hsup
    simp only [handle_call_tool]
    rcases hsrc with h | h <;>
      simp [hne, h, hsup2, htr, hout, hsep, Except.map]

/-- C3 witness: with the default configuration, the directory components
of "/any/dir/out.pdf" are discarded and the storage path and download URL
are built from "out.pdf"; a path ending in "/" makes the resolution and
the handler fail with the empty-filename error. -/
theorem C3_output_resolution_witness :
    resolveOutput defaultSharedDir defaultDownloadBaseURL ("/any/dir" ++ "/" ++ "out.pdf") =
      .ok ("out.pdf", pyJoin defaultSharedDir "out.pdf",
        rstripSlash defaultDownloadBaseURL ++ "/" ++ "out.pdf") ∧
    resolveOutput defaultSharedDir defaultDownloadBaseURL ("/any/dir" ++ "/") =
      .error .outputFileMissingFilename ∧
    (handle_call_tool testEnv "convert-contents"
        (some { contents := some "hello", output_format := some "html",
                output_file := some ("/any/dir" ++ "/") })).1 =
      .error .outputFileMissingFilename := by
  refine ⟨C3_output_resolution.1 defaultSharedDir defaultDownloadBaseURL "/any/dir" "out.pdf"
      (by decide) (by decide),
    C3_output_resolution.2.2.1 defaultSharedDir defaultDownloadBaseURL "/any/dir",
    C3_output_resolution.2.2.2 testEnv _ "/any/dir" (Or.inl (by decide)) rfl (by decide)⟩

/-- C4 counterexample: the claim's supported set contains "text", but the
handler rejects output_format "text" with the unsupported-format error (the
code's set contains "txt" instead). -/
theorem C4_counterexample :
    (handle_call_tool testEnv "convert-contents"
        (some { contents := some "x", output_format := some "text" })).1 =
      .error (.unsupportedOutputFormat "text" SUPPORTED_FORMATS) := by
  rfl

/-- C4 (amended): the supported set is {html, markdown, pdf, docx, rst,
latex, epub, txt}; every request (with a source) whose lowercased
output_format is outside it fails — before any engine call — with the
unsupported-format error carrying that set, and every member of the set
passes the membership check (no unsupported-format error is ever
produced for it). -/
theorem C4_unsupported_format (env : Env) (a : ToolArguments)
    (hsrc : pyTruthy a.contents = true ∨ pyTruthy a.input_file = true) :
    (SUPPORTED_FORMATS.contains (pyLower (a.output_format.getD "markdown")) = false →
      (handle_call_tool env "convert-contents" (some a)).1 =
        .error (.unsupportedOutputFormat (pyLower (a.output_format.getD "markdown"))
          SUPPORTED_FORMATS) ∧
      (handle_call_tool env "convert-contents" (some a)).2 = []) ∧
    (SUPPORTED_FORMATS.contains (pyLower (a.output_format.getD "markdown")) = true →
      ∀ fmt sup, (handle_call_tool env "convert-contents" (some a)).1 ≠
        .error (.unsupportedOutputFormat fmt sup)) := by
  have hne : argsEmpty a = false := by
    rcases hsrc with h | h
    · exact argsEmpty_false_of_contents h
    · exact argsEmpty_false_of_input_file h
  constructor
  · intro hbad
    have hbad2 : ¬ (pyLower (a.output_format.getD "markdown") ∈ SUPPORTED_FORMATS) := by
      simpa using hbad
    simp only [handle_call_tool]
    rcases hsrc with h | h <;> simp [hne, h, hbad2]
  · intro hsup fmt sup hcontra
    have hsup2 : pyLower (a.output_format.getD "markdown") ∈ SUPPORTED_FORMATS := by
      simpa using hsup
    simp only [handle_call_tool] at hcontra
    rcases hsrc with h | h <;>
      (simp [hne, h, hsup2] at hcontra
       repeat' split at hcontra
       all_goals simp_all
       all_goals
         rename_i heq
         exact absurd (resolvedStep_error heq) (by simp))

/-- C4 witness: output_format "json" (with source supplied) fails with the
unsupported-format error carrying the code's supported set, while "html"
never produces an unsupported-format error. -/
theorem C4_unsupported_format_witness :
    (handle_call_tool testEnv "convert-contents"
        (some { contents := some "x", output_format := some "json" })).1 =
      .error (.unsupportedOutputFormat "json" SUPPORTED_FORMATS) ∧
    (handle_call_tool testEnv "convert-contents"
        (some { contents := some "x", output_format := some "html" })).1 ≠
      .error (.unsupportedOutputFormat "html" SUPPORTED_FORMATS) := by
  constructor
  · have h := ((C4_unsupported_format testEnv
      { contents := some "x", output_format := some "json" }
      (Or.inl (by decide))).1 (by decide)).1
    simpa using h
  · exact (C4_unsupported_format testEnv
      { contents := some "x", output_format := some "html" }
      (Or.inl (by decide))).2 (by decide) "html" SUPPORTED_FORMATS

/-- C8: the static route served by the HTTP server is the path component
of the configured download base URL with trailing slashes stripped; when
nothing remains (URL without a path component) the route is the root "/"
and the degraded-configuration warning is logged; the warning fires in
exactly that case. -/
theorem C8_route_from_base_url (url : String) :
    (rstripSlash (pyUrlparsePath url) ≠ "" →
      httpServerRoute url = (rstripSlash (pyUrlparsePath url), false)) ∧
    (rstripSlash (pyUrlparsePath url) = "" →
      httpServerRoute url = ("/", true)) ∧
    ((httpServerRoute url).2 = true ↔ rstripSlash (pyUrlparsePath url) = "") := by
  unfold httpServerRoute
  by_cases h : rstripSlash (pyUrlparsePath url) = "" <;> simp [h]

/-- C8 witness: the default base URL yields the "/downloads" route without
a warning, and a path-less base URL yields the root route with the
warning. -/
theorem C8_route_from_base_url_witness :
    httpServerRoute "http://localhost:8081/downloads" = ("/downloads", false) ∧
    httpServerRoute "http://localhost:8081" = ("/", true) := by
  constructor
  · have h := (C8_route_from_base_url "http://localhost:8081/downloads").1 (by decide)
    simpa using h
  · exact (C8_route_from_base_url "http://localhost:8081").2.1 (by decide)

/-- C1 counterexample: a request supplying both contents and input_file
does not error — the handler succeeds (taking the file branch), so "both
supplied is an error" is false. -/
theorem C1_counterexample :
    (handle_call_tool testEnv "convert-contents"
        (some { contents := some "x", input_file := some "/in.md",
                output_format := some "html" })).1 =
      .ok (convertedContentsMsg "html" "converted") := by
  rfl

/-- C1 (amended): the handler fails with the missing-source error exactly
when neither contents nor input_file is supplied non-empty; when at least
one is supplied — including when both are — it proceeds past this
validation step (no source-ambiguity error exists). -/
theorem C1_source_validation (env : Env) (a : ToolArguments)
    (hne : argsEmpty a = false) :
    (pyTruthy a.contents = false → pyTruthy a.input_file = false →
      (handle_call_tool env "convert-contents" (some a)).1 =
        .error .missingSourceArgument ∧
      (handle_call_tool env "convert-contents" (some a)).2 = []) ∧
    ((pyTruthy a.contents = true ∨ pyTruthy a.input_file = true) →
      (handle_call_tool env "convert-contents" (some a)).1 ≠
        .error .missingSourceArgument) := by
  constructor
  · intro hc hf
    simp only [handle_call_tool]
    simp [hne, hc, hf]
  · intro hsrc hcontra
    simp only [handle_call_tool] at hcontra
    rcases hsrc with h | h <;>
      (simp [hne, h] at hcontra
       repeat' split at hcontra
       all_goals simp_all
       all_goals
         rename_i heq
         exact absurd (resolvedStep_error heq) (by simp))

/-- C1 witness: a request with neither source errors with the
missing-source error; one with only contents does not. -/
theorem C1_source_validation_witness :
    (handle_call_tool testEnv "convert-contents"
        (some { output_format := some "html" })).1 = .error .missingSourceArgument ∧
    (handle_call_tool testEnv "convert-contents"
        (some { contents := some "x", output_format := some "html" })).1 ≠
      .error .missingSourceArgument := by
  constructor
  · exact ((C1_source_validation testEnv { output_format := some "html" }
      (by decide)).1 (by decide) (by decide)).1
  · exact (C1_source_validation testEnv
      { contents := some "x", output_format := some "html" }
      (by decide)).2 (Or.inl (by decide))

/-- C2: a request (with a source) whose lowercased output_format is in the
advanced set and whose output_file is absent (falsy) fails with the
missing-output-path error, and the external engine is never invoked. -/
theorem C2_advanced_requires_output_file (env : Env) (a : ToolArguments)
    (hsrc : pyTruthy a.contents = true ∨ pyTruthy a.input_file = true)
    (hadv : ADVANCED_FORMATS.contains (pyLower (a.output_format.getD "markdown")) = true)
    (hout : pyTruthy a.output_file = false) :
    (handle_call_tool env "convert-contents" (some a)).1 =
      .error (.outputFileRequired (pyLower (a.output_format.getD "markdown"))) ∧
    (handle_call_tool env "convert-contents" (some a)).2 = [] := by
  have hne : argsEmpty a = false := by
    rcases hsrc with h | h
    · exact argsEmpty_false_of_contents h
    · exact argsEmpty_false_of_input_file h
  have hsup2 : pyLower (a.output_format.getD "markdown") ∈ SUPPORTED_FORMATS := by
    simpa using advanced_mem_supported hadv
  have hadv2 : pyLower (a.output_format.getD "markdown") ∈ ADVANCED_FORMATS := by
    simpa using hadv
  simp only [handle_call_tool]
  rcases hsrc with h | h <;> simp [hne, h, hsup2, hadv2, hout]

/-- C2 witness: converting contents to pdf without an output_file fails
with the missing-output-path error and performs no engine call. -/
theorem C2_advanced_requires_output_file_witness :
    (handle_call_tool testEnv "convert-contents"
        (some { contents := some "x", output_format := some "pdf" })).1 =
      .error (.outputFileRequired "pdf") ∧
    (handle_call_tool testEnv "convert-contents"
        (some { contents := some "x", output_format := some "pdf" })).2 = [] := by
  exact C2_advanced_requires_output_file testEnv
    { contents := some "x", output_format := some "pdf" }
    (Or.inl (by decide)) (by decide) (by decide)

/-- C5: when input_file is supplied but the path does not exist, the
external engine is never invoked, and (when the request passes the earlier
validations) the handler fails with the wrapped input-file-not-found
error. -/
theorem C5_source_not_found (env : Env) (a : ToolArguments)
    (hfile : pyTruthy a.input_file = true)
    (hmiss : env.fsExists (a.input_file.getD "") = false) :
    (handle_call_tool env "convert-contents" (some a)).2 = [] ∧
    (SUPPORTED_FORMATS.contains (pyLower (a.output_format.getD "markdown")) = true →
      (ADVANCED_FORMATS.contains (pyLower (a.output_format.getD "markdown")) = true →
        pyTruthy a.output_file = true) →
      (pyTruthy a.output_file = true → pyBasename (a.output_file.getD "") ≠ "") →
      (handle_call_tool env "convert-contents" (some a)).1 =
        .error (.conversionError ("file " ++ a.input_file.getD "")
          (pyLower (a.input_format.getD "markdown"))
          (pyLower (a.output_format.getD "markdown"))
          (.inputFileNotFound (a.input_file.getD "")))) := by
  have hne : argsEmpty a = false := argsEmpty_false_of_input_file hfile
  constructor
  · simp only [handle_call_tool]
    repeat' split
    all_goals simp_all
  · intro hsup hadvreq hbase
    have hsup2 : pyLower (a.output_format.getD "markdown") ∈ SUPPORTED_FORMATS := by
      simpa using hsup
    simp only [handle_call_tool]
    by_cases hof : pyTruthy a.output_file = true
    · have hb := hbase hof
      have hres : resolveOutput env.sharedDownloadInternalPath env.downloadBaseURL
          (a.output_file.getD "") =
          .ok (pyBasename (a.output_file.getD ""),
            pyJoin env.sharedDownloadInternalPath (pyBasename (a.output_file.getD "")),
            rstripSlash env.downloadBaseURL ++ "/" ++ pyBasename (a.output_file.getD "")) := by
        simp only [resolveOutput]
        rw [if_neg hb]
      simp [hne, hfile, hsup2, hof, hres, hmiss, Except.map]
    · have hnadv : ¬ (pyLower (a.output_format.getD "markdown") ∈ ADVANCED_FORMATS) := by
        intro hmem
        exact hof (hadvreq (by simpa using hmem))
      simp [hne, hfile, hsup2, hof, hnadv, hmiss]

/-- C5 witness: with a filesystem on which no path exists, a request for a
missing input file performs no engine call and fails with the wrapped
input-file-not-found error. -/
theorem C5_source_not_found_witness :
    (handle_call_tool { testEnv with fsExists := fun _ => false } "convert-contents"
        (some { input_file := some "/missing.md" })).2 = [] ∧
    (handle_call_tool { testEnv with fsExists := fun _ => false } "convert-contents"
        (some { input_file := some "/missing.md" })).1 =
      .error (.conversionError ("file " ++ "/missing.md") "markdown" "markdown"
        (.inputFileNotFound "/missing.md")) := by
  refine ⟨(C5_source_not_found { testEnv with fsExists := fun _ => false }
      { input_file := some "/missing.md" } (by decide) rfl).1, ?_⟩
  exact (C5_source_not_found { testEnv with fsExists := fun _ => false }
    { input_file := some "/missing.md" } (by decide) rfl).2
    (by decide) (by decide) (by decide)

/-- C6: an inline-mode conversion (no output_file, non-advanced supported
format) returns success carrying the inline message built from the engine
output; an empty or all-whitespace engine output yields the distinct
empty-result notice, and a non-whitespace one yields the normal
converted-contents message, which contains the engine output and differs
from the notice. -/
theorem C6_inline_empty_result (env : Env) (a : ToolArguments)
    (hsrc : pyTruthy a.contents = true ∨ pyTruthy a.input_file = true)
    (hout : pyTruthy a.output_file = false)
    (hsup : SUPPORTED_FORMATS.contains (pyLower (a.output_format.getD "markdown")) = true)
    (hadv : ADVANCED_FORMATS.contains (pyLower (a.output_format.getD "markdown")) = false)
    (hfsx : pyTruthy a.input_file = true → env.fsExists (a.input_file.getD "") = true) :
    (pyTruthy a.input_file = true →
      (handle_call_tool env "convert-contents" (some a)).1 =
        .ok (inlineResultMsg (pyLower (a.output_format.getD "markdown"))
          (env.convertFileInline (a.input_file.getD "")
            (pyLower (a.output_format.getD "markdown"))
            (buildExtraArgs (pyLower (a.output_format.getD "markdown"))
              (pyLower (a.input_format.getD "markdown")))))) ∧
    (pyTruthy a.input_file = false →
      (handle_call_tool env "convert-contents" (some a)).1 =
        .ok (inlineResultMsg (pyLower (a.output_format.getD "markdown"))
          (env.convertTextInline (a.contents.getD "")
            (pyLower (a.output_format.getD "markdown"))
            (pyLower (a.input_format.getD "markdown"))
            (buildExtraArgs (pyLower (a.output_format.getD "markdown"))
              (pyLower (a.input_format.getD "markdown")))))) ∧
    (∀ fmt r, pyStripIsEmpty r = true → inlineResultMsg fmt r = emptyResultMsg fmt) ∧
    (∀ fmt r, pyStripIsEmpty r = false →
      inlineResultMsg fmt r = convertedContentsMsg fmt r ∧
      (∃ pre, convertedContentsMsg fmt r = pre ++ r) ∧
      convertedContentsMsg fmt r ≠ emptyResultMsg fmt) := by
  have hne : argsEmpty a = false := by
    rcases hsrc with h | h
    · exact argsEmpty_false_of_contents h
    · exact argsEmpty_false_of_input_file h
  have hsup2 : pyLower (a.output_format.getD "markdown") ∈ SUPPORTED_FORMATS := by
    simpa using hsup
  have hnadv : ¬ (pyLower (a.output_format.getD "markdown") ∈ ADVANCED_FORMATS) := by
    simpa using hadv
  refine ⟨?_, ?_, ?_, ?_⟩
  · intro hf
    have hex := hfsx hf
    simp only [handle_call_tool]
    simp [hne, hf, hsup2, hnadv, hout, hex]
  · intro hf
    rcases hsrc with h | h
    · simp only [handle_call_tool]
      simp [hne, h, hf, hsup2, hnadv, hout]
    · rw [h] at hf
      exact absurd hf (by simp)
  · intro fmt r h
    simp [inlineResultMsg, h]
  · intro fmt r h
    refine ⟨by simp [inlineResultMsg, h], ⟨_, rfl⟩,
      convertedContentsMsg_ne_emptyResultMsg fmt r⟩

/-- C6 witness: with an engine returning whitespace the handler succeeds
with the empty-result notice; with a non-empty engine output it succeeds
with the converted-contents message, which contains the output and differs
from the notice. -/
theorem C6_inline_empty_result_witness :
    (handle_call_tool { testEnv with convertTextInline := fun _ _ _ _ => " \n" }
        "convert-contents"
        (some { contents := some "x", output_format := some "html" })).1 =
      .ok (inlineResultMsg "html" " \n") ∧
    inlineResultMsg "html" " \n" = emptyResultMsg "html" ∧
    (handle_call_tool testEnv "convert-contents"
        (some { contents := some "x", output_format := some "html" })).1 =
      .ok (inlineResultMsg "html" "converted") ∧
    inlineResultMsg "html" "converted" = convertedContentsMsg "html" "converted" ∧
    convertedContentsMsg "html" "converted" ≠ emptyResultMsg "html" := by
  refine ⟨?_, ?_, ?_, ?_, ?_⟩
  · exact (C6_inline_empty_result { testEnv with convertTextInline := fun _ _ _ _ => " \n" }
      { contents := some "x", output_format := some "html" }
      (Or.inl (by decide)) (by decide) (by decide) (by decide) (by decide)).2.1 (by decide)
  · exact (C6_inline_empty_result { testEnv with convertTextInline := fun _ _ _ _ => " \n" }
      { contents := some "x", output_format := some "html" }
      (Or.inl (by decide)) (by decide) (by decide) (by decide) (by decide)).2.2.1
      "html" " \n" (by decide)
  · exact (C6_inline_empty_result testEnv
      { contents := some "x", output_format := some "html" }
      (Or.inl (by decide)) (by decide) (by decide) (by decide) (by decide)).2.1 (by decide)
  · exact ((C6_inline_empty_result testEnv
      { contents := some "x", output_format := some "html" }
      (Or.inl (by decide)) (by decide) (by decide) (by decide) (by decide)).2.2.2
      "html" "converted" (by decide)).1
  · exact ((C6_inline_empty_result testEnv
      { contents := some "x", output_format := some "html" }
      (Or.inl (by decide)) (by decide) (by decide) (by decide) (by decide)).2.2.2
      "html" "converted" (by decide)).2.2

/-- C9: when both contents and input_file are supplied, the handler does
not raise the source error, its behavior does not depend on contents at
all (the file branch is taken), and every engine invocation it performs is
a file-source conversion. -/
theorem C9_both_sources (env : Env) (a : ToolArguments)
    (hc : pyTruthy a.contents = true) (hf : pyTruthy a.input_file = true) :
    (handle_call_tool env "convert-contents" (some a)).1 ≠
      .error .missingSourceArgument ∧
    (∀ x, handle_call_tool env "convert-contents" (some { a with contents := x }) =
      handle_call_tool env "convert-contents" (some a)) ∧
    (∀ call, call ∈ (handle_call_tool env "convert-contents" (some a)).2 →
      call.isFileSource = true) := by
  have hne : argsEmpty a = false := argsEmpty_false_of_input_file hf
  refine ⟨?_, ?_, ?_⟩
  · intro hcontra
    simp only [handle_call_tool] at hcontra
    simp [hne, hf] at hcontra
    repeat' split at hcontra
    all_goals simp_all
    all_goals
      rename_i heq
      exact absurd (resolvedStep_error heq) (by simp)
  · intro x
    have hne2 : argsEmpty { a with contents := x } = false :=
      argsEmpty_false_of_input_file (by simpa using hf)
    simp only [handle_call_tool]
    simp [hne, hne2, hf]
  · intro call hcall
    simp only [handle_call_tool] at hcall
    simp [hne, hf] at hcall
    repeat' split at hcall
    all_goals simp_all [EngineCall.isFileSource]

/-- C9 witness: with both sources supplied the handler does not raise the
source error, ignores contents, and only performs file-source engine
calls. -/
theorem C9_both_sources_witness :
    (handle_call_tool testEnv "convert-contents"
        (some { contents := some "x", input_file := some "/in.md",
                output_format := some "html" })).1 ≠
      .error .missingSourceArgument ∧
    handle_call_tool testEnv "convert-contents"
        (some { contents := some "other", input_file := some "/in.md",
                output_format := some "html" }) =
      handle_call_tool testEnv "convert-contents"
        (some { contents := some "x", input_file := some "/in.md",
                output_format := some "html" }) := by
  refine ⟨(C9_both_sources testEnv
      { contents := some "x", input_file := some "/in.md", output_format := some "html" }
      (by decide) (by decide)).1, ?_⟩
  exact (C9_both_sources testEnv
    { contents := some "x", input_file := some "/in.md", output_format := some "html" }
    (by decide) (by decide)).2.1 (some "other")

/-- C10: the handler's behavior depends on output_format and input_format
only through lowercasing, so format tokens are case-insensitive: any two
requests whose format strings agree after lowercasing behave
identically. -/
theorem C10_case_insensitive_formats (env : Env) (a : ToolArguments)
    (s t s2 t2 : String) (hof : pyLower s = pyLower t) (hif : pyLower s2 = pyLower t2) :
    handle_call_tool env "convert-contents"
        (some { a with output_format := some s, input_format := some s2 }) =
      handle_call_tool env "convert-contents"
        (some { a with output_format := some t, input_format := some t2 }) := by
  simp only [handle_call_tool, argsEmpty]
  simp only [Option.getD_some]
  rw [hof, hif]
  simp

/-- C10 witness: a request with output_format "PDF" and input_format
"Markdown" behaves identically to the same request with "pdf" and
"markdown". -/
theorem C10_case_insensitive_formats_witness :
    handle_call_tool testEnv "convert-contents"
        (some { contents := some "x", input_format := some "Markdown",
                output_format := some "PDF", output_file := some "/d/o.pdf" }) =
      handle_call_tool testEnv "convert-contents"
        (some { contents := some "x", input_format := some "markdown",
                output_format := some "pdf", output_file := some "/d/o.pdf" }) := by
  exact C10_case_insensitive_formats testEnv
    { contents := some "x", output_file := some "/d/o.pdf" }
    "PDF" "pdf" "Markdown" "markdown" (by decide) (by decide)

end MCPPandoc
